import Mathlib

/-!
Shallow embedding of the request/session lifecycle of the mcp-server-gemini
repository, covering:

* `src/protocol.ts` — `ERROR_CODES`, `PROTOCOL_VERSION`, `SERVER_INFO`,
  `SERVER_CAPABILITIES`, `createInitializeResult`, `validateRequest`,
  and the `ProtocolManager` class (`initialized` / `shutdownRequested`
  flags, `validateState`).
* `src/handlers.ts` — the `MCPHandlers` class: the shared
  `activeRequests : Map<id, AbortController>` keyed by bare request id,
  `handleInitialize`, `handleGenerate`, `handleStream`, `handleCancel`,
  `handleConfigure`, `cancelRequest`, `handleApiError`, and the
  `handleRequest` dispatcher.
* `src/server.ts` — the per-connection `ws.on('message')` listener
  (envelope already validated: the claims quantify over well-formed
  requests that carry an id), the `handlers.on('response')` routing
  listener, the catch-block error path, connection cleanup and the
  shutdown trigger.

Modelling conventions: JS `Map` / `Set` become association lists / lists
kept in insertion order (matching JS iteration order); an
`AbortController` is a numbered token whose `abort()` marks the token in
an `aborted` list; the Gemini backend is a parameter (`Backend`) giving
the single-shot outcome and the lazy chunk sequence of the streaming
call; external cancellation of a running stream's own controller is a
schedule parameter (`cancelAfter = some k` means the signal becomes
aborted once `k` chunks have been emitted), because in the source the
abort arrives from a concurrently handled `cancel` message. Wall-clock
fields (timestamps, ip) and float-valued generation options are omitted:
no claim mentions them.
-/

/-- Request identifiers: JSON-RPC ids are numbers or strings. -/
inductive RId where
  | num (v : Int)
  | str (v : String)
deriving DecidableEq, Repr

/-- JS truthiness of an id value, as used by the guard
`if (request?.id && state.activeRequests.has(request.id))` in the
catch block of the message listener (server.ts): the number 0 and the
empty string are falsy. -/
def RId.truthy : RId → Bool
  | .num v => v ≠ 0
  | .str v => v ≠ ""

/-- Structured protocol error (code, message); the optional `data`
payload is untyped `any` in the source and never inspected, so it is
omitted. -/
structure MCPError where
  code : Int
  message : String
deriving DecidableEq, Repr

namespace ERROR_CODES

def PARSE_ERROR : Int := -32700

def INVALID_REQUEST : Int := -32600

def METHOD_NOT_FOUND : Int := -32601

def INVALID_PARAMS : Int := -32602

def INTERNAL_ERROR : Int := -32603

def SERVER_NOT_INITIALIZED : Int := -32002

def UNKNOWN_ERROR : Int := -32001

def GEMINI_API_ERROR : Int := -32100

def GEMINI_RATE_LIMIT : Int := -32101

def GEMINI_INVALID_TOKEN : Int := -32102

def GEMINI_CONTENT_FILTER : Int := -32103

end ERROR_CODES

structure ServerInfo where
  name : String
  version : String
deriving DecidableEq, Repr

/-- Capability record of protocol.ts, flattened to its boolean leaves
(`experimental` and `logging` are empty objects in the source). -/
structure ServerCapabilities where
  promptsListChanged : Bool
  resourcesSubscribe : Bool
  resourcesListChanged : Bool
  toolsListChanged : Bool
deriving DecidableEq, Repr

def PROTOCOL_VERSION : String := "2024-11-05"

def SERVER_INFO : ServerInfo := { name := "gemini-mcp", version := "1.0.0" }

def SERVER_CAPABILITIES : ServerCapabilities :=
  { promptsListChanged := true
    resourcesSubscribe := true
    resourcesListChanged := true
    toolsListChanged := true }

structure InitializeResult where
  protocolVersion : String
  serverInfo : ServerInfo
  capabilities : ServerCapabilities
deriving DecidableEq, Repr

def createInitializeResult : InitializeResult :=
  { protocolVersion := PROTOCOL_VERSION
    serverInfo := SERVER_INFO
    capabilities := SERVER_CAPABILITIES }

/-- The parameter object of a request; each field records the keys the
handlers inspect (`configuration` only has its presence tested). -/
structure RequestParams where
  prompt : Option String
  requestId : Option RId
  configuration : Bool
deriving DecidableEq, Repr

structure MCPRequest where
  id : RId
  method : String
  params : Option RequestParams
deriving DecidableEq, Repr

/-- Whether a key is present in a params object (the `param in
request.params` test of protocol.ts `validateRequest`). -/
def hasKey (p : RequestParams) (key : String) : Bool :=
  if key = "prompt" then p.prompt.isSome
  else if key = "requestId" then p.requestId.isSome
  else if key = "configuration" then p.configuration
  else false

/-- protocol.ts `validateRequest`: false when `params` is absent,
otherwise every required key must be present. -/
def validateRequest (req : MCPRequest) (requiredParams : List String) : Bool :=
  match req.params with
  | none => false
  | some p => requiredParams.all (hasKey p)

structure CompletionMeta where
  model : String
  provider : String
deriving DecidableEq, Repr

inductive MCPResult where
  | initRes (r : InitializeResult)
  | completion (content : String) (meta : CompletionMeta)
  | stream (content : String) (done : Bool)
  | cancelled (flag : Bool)
  | configured (flag : Bool)
deriving DecidableEq, Repr

/-- A response sent to a client: a success `result` or an `error`.
Every response modelled here carries the originating request id
(null-id responses only arise from parse failures, outside the
modelled fragment). -/
structure MCPResponse where
  id : RId
  result : Option MCPResult
  error : Option MCPError
deriving DecidableEq, Repr

def errorResponse (id : RId) (e : MCPError) : MCPResponse :=
  { id := id, result := none, error := some e }

def streamResponse (id : RId) (content : String) (done : Bool) : MCPResponse :=
  { id := id, result := some (.stream content done), error := none }

def completionResponse (id : RId) (content : String) : MCPResponse :=
  { id := id
    result := some (.completion content { model := "gemini-pro", provider := "google" })
    error := none }

def initializeResponse (id : RId) : MCPResponse :=
  { id := id, result := some (.initRes createInitializeResult), error := none }

def cancelledResponse (id : RId) : MCPResponse :=
  { id := id, result := some (.cancelled true), error := none }

def configuredResponse (id : RId) : MCPResponse :=
  { id := id, result := some (.configured true), error := none }

/-- Outcome of the backend's single-shot `generateContent` call. -/
inductive GenOutcome where
  | ok (text : String)
  | err (message : String)
deriving DecidableEq, Repr

/-- The Gemini backend collaborator: single-shot outcome, and the lazy
chunk sequence of `generateContentStream` (`streamErr = some m` means
the iterator throws `m` after yielding all of `streamChunks`; a throw
of `generateContentStream` itself is the case `streamChunks = []`). -/
structure Backend where
  gen : GenOutcome
  streamChunks : List String
  streamErr : Option String
deriving DecidableEq, Repr

def charsPrefixOf : List Char → List Char → Bool
  | [], _ => true
  | _ :: _, [] => false
  | a :: as, b :: bs => if a = b then charsPrefixOf as bs else false

def charsContains : List Char → List Char → Bool
  | [], pat => charsPrefixOf pat []
  | a :: rest, pat =>
    if charsPrefixOf pat (a :: rest) then true else charsContains rest pat

/-- Substring test (JS `String.prototype.includes`), on the character
lists. -/
def strContains (s pat : String) : Bool :=
  charsContains s.data pat.data

/-- handlers.ts `handleApiError` for a thrown error that carries a
message (every error thrown in the modelled fragment does). -/
def handleApiError (message : String) : MCPError :=
  if strContains message "API key not valid" then
    { code := ERROR_CODES.GEMINI_INVALID_TOKEN, message := "Gemini API Error: " ++ message }
  else if strContains message "quota" then
    { code := ERROR_CODES.GEMINI_RATE_LIMIT, message := "Gemini API Error: " ++ message }
  else
    { code := ERROR_CODES.GEMINI_API_ERROR, message := "Gemini API Error: " ++ message }

/-- JS `Map.get`. -/
def mapGet : List (RId × Nat) → RId → Option Nat
  | [], _ => none
  | (k, v) :: rest, key => if k = key then some v else mapGet rest key

/-- JS `Map.set`: replaces the value in place when the key exists,
otherwise appends (insertion order preserved). -/
def mapSet : List (RId × Nat) → RId → Nat → List (RId × Nat)
  | [], key, v => [(key, v)]
  | (k, w) :: rest, key, v =>
    if k = key then (k, v) :: rest else (k, w) :: mapSet rest key v

/-- JS `Map.delete`. -/
def mapDelete : List (RId × Nat) → RId → List (RId × Nat)
  | [], _ => []
  | (k, w) :: rest, key => if k = key then rest else (k, w) :: mapDelete rest key

/-- State of the `MCPHandlers` instance: the shared
`activeRequests : Map<string | number, AbortController>` (controllers
as numbered tokens), the next fresh token, and the set of tokens whose
controller has been aborted. -/
structure HandlersState where
  activeRequests : List (RId × Nat)
  nextToken : Nat
  aborted : List Nat
deriving DecidableEq, Repr

def HandlersState.initial : HandlersState :=
  { activeRequests := [], nextToken := 0, aborted := [] }

def invalidPromptError : MCPError :=
  { code := ERROR_CODES.INVALID_PARAMS
    message := "Invalid or missing parameters: prompt is required" }

def missingRequestIdError : MCPError :=
  { code := ERROR_CODES.INVALID_PARAMS, message := "Missing requestId parameter" }

def missingConfigurationError : MCPError :=
  { code := ERROR_CODES.INVALID_PARAMS, message := "Missing configuration parameter" }

def notInitializedError : MCPError :=
  { code := ERROR_CODES.SERVER_NOT_INITIALIZED, message := "Server not initialized" }

def shuttingDownError : MCPError :=
  { code := ERROR_CODES.INVALID_REQUEST, message := "Server is shutting down" }

def alreadyInitializedError : MCPError :=
  { code := ERROR_CODES.INVALID_REQUEST
    message := "Server already initialized for this connection" }

def methodNotFoundError (method : String) : MCPError :=
  { code := ERROR_CODES.METHOD_NOT_FOUND, message := "Method not found: " ++ method }

/-- State of this run's own `AbortController.signal.aborted` after
`emitted` chunks have been emitted, under the external cancellation
schedule (`some k` = the abort arrives once `k` chunks are out). -/
def sigAborted (cancelAfter : Option Nat) (emitted : Nat) : Bool :=
  match cancelAfter with
  | none => false
  | some k => k ≤ emitted

inductive StreamExit where
  | exhausted
  | abortedBreak
  | errored (message : String)
deriving DecidableEq, Repr

/-- The `for await (const chunk of streamResult.stream)` loop of
`handleStream`: each iteration first pulls a chunk from the backend
iterator, then tests `abortController.signal.aborted` (breaking without
emitting when set), else emits an intermediate `done:false` response.
Returns (emitted responses, chunks pulled from the backend, exit kind).
Exhaustion, or the iterator throwing, ends the loop. -/
def streamLoop (id : RId) (cancelAfter : Option Nat) (streamErr : Option String) :
    List String → Nat → List MCPResponse × Nat × StreamExit
  | [], _ =>
    match streamErr with
    | some m => ([], 0, .errored m)
    | none => ([], 0, .exhausted)
  | ch :: rest, emitted =>
    if sigAborted cancelAfter emitted then ([], 1, .abortedBreak)
    else
      let r := streamLoop id cancelAfter streamErr rest (emitted + 1)
      (streamResponse id ch false :: r.1, r.2.1 + 1, r.2.2)

/-- handlers.ts `handleGenerate`: validates the prompt, registers a
fresh controller under the request id (`Map.set`, replacing any
existing binding), consults the backend, deletes the binding, and
returns the completion or throws the mapped API error.
Result: (direct result or thrown error, backend was invoked, state). -/
def handleGenerate (req : MCPRequest) (backend : Backend) (st : HandlersState) :
    Except MCPError MCPResponse × Bool × HandlersState :=
  if ¬ validateRequest req ["prompt"] then (.error invalidPromptError, false, st)
  else
    let tok := st.nextToken
    let st1 : HandlersState :=
      { st with nextToken := tok + 1, activeRequests := mapSet st.activeRequests req.id tok }
    match backend.gen with
    | .ok text =>
      (.ok (completionResponse req.id text), true,
        { st1 with activeRequests := mapDelete st1.activeRequests req.id })
    | .err m =>
      (.error (handleApiError m), true,
        { st1 with activeRequests := mapDelete st1.activeRequests req.id })

/-- handlers.ts `handleStream`: validates the prompt, registers a fresh
controller, runs the chunk loop; after natural exhaustion with the
signal still clear it emits the terminal `content:"", done:true`
response; after an abort-break it emits nothing further; a thrown
backend error is caught and emitted as an error response; the
`finally` block deletes the id from the handler map in every case.
Result: (throw or unit, emitted responses in order, chunks pulled,
backend invoked, state). -/
def handleStream (req : MCPRequest) (backend : Backend) (cancelAfter : Option Nat)
    (st : HandlersState) :
    Except MCPError Unit × List MCPResponse × Nat × Bool × HandlersState :=
  if ¬ validateRequest req ["prompt"] then (.error invalidPromptError, [], 0, false, st)
  else
    let tok := st.nextToken
    let st1 : HandlersState :=
      { st with nextToken := tok + 1, activeRequests := mapSet st.activeRequests req.id tok }
    let r := streamLoop req.id cancelAfter backend.streamErr backend.streamChunks 0
    let emitted :=
      match r.2.2 with
      | .exhausted =>
        if sigAborted cancelAfter r.1.length then r.1
        else r.1 ++ [streamResponse req.id "" true]
      | .abortedBreak => r.1
      | .errored m => r.1 ++ [errorResponse req.id (handleApiError m)]
    (.ok (), emitted, r.2.1, true,
      { st1 with activeRequests := mapDelete st1.activeRequests req.id })

/-- handlers.ts `handleCancel`: requires the `requestId` param (else
throws InvalidParams); if a controller is registered under that bare id
it is aborted and the binding deleted; in both the found and not-found
case the result is `cancelled:true`. -/
def handleCancel (req : MCPRequest) (st : HandlersState) :
    Except MCPError MCPResponse × HandlersState :=
  match req.params with
  | none => (.error missingRequestIdError, st)
  | some p =>
    match p.requestId with
    | none => (.error missingRequestIdError, st)
    | some rid =>
      match mapGet st.activeRequests rid with
      | some tok =>
        (.ok (cancelledResponse req.id),
          { st with
              aborted := tok :: st.aborted
              activeRequests := mapDelete st.activeRequests rid })
      | none => (.ok (cancelledResponse req.id), st)

/-- handlers.ts `handleConfigure`: requires the `configuration` param,
then acknowledges without touching any state. -/
def handleConfigure (req : MCPRequest) (st : HandlersState) :
    Except MCPError MCPResponse × HandlersState :=
  if ¬ validateRequest req ["configuration"] then (.error missingConfigurationError, st)
  else (.ok (configuredResponse req.id), st)

/-- handlers.ts `cancelRequest` (used by connection cleanup and
shutdown): abort and drop the controller if one is registered. -/
def cancelRequest (requestId : RId) (st : HandlersState) : HandlersState :=
  match mapGet st.activeRequests requestId with
  | some tok =>
    { st with
        aborted := tok :: st.aborted
        activeRequests := mapDelete st.activeRequests requestId }
  | none => st

/-- Result of one `handleRequest` dispatch: the direct result (`none`
for a started stream) or the thrown error, the responses emitted via
the `response` event in order, how many chunks were pulled from the
backend, whether the backend was invoked at all, and the new handler
state. -/
structure HandlerOutcome where
  result : Except MCPError (Option MCPResponse)
  emitted : List MCPResponse
  consumed : Nat
  usedBackend : Bool
  state : HandlersState

/-- handlers.ts `handleRequest`: dispatch by method name; `stream`
returns null after the (awaited) stream finishes; unknown methods throw
MethodNotFound. Structured errors are re-thrown unchanged. -/
def handleRequest (req : MCPRequest) (backend : Backend) (cancelAfter : Option Nat)
    (st : HandlersState) : HandlerOutcome :=
  if req.method = "initialize" then
    { result := .ok (some (initializeResponse req.id)), emitted := [], consumed := 0
      usedBackend := false, state := st }
  else if req.method = "generate" then
    match handleGenerate req backend st with
    | (.ok resp, used, st2) =>
      { result := .ok (some resp), emitted := [], consumed := 0
        usedBackend := used, state := st2 }
    | (.error e, used, st2) =>
      { result := .error e, emitted := [], consumed := 0
        usedBackend := used, state := st2 }
  else if req.method = "stream" then
    match handleStream req backend cancelAfter st with
    | (.ok _, emitted, consumed, used, st2) =>
      { result := .ok none, emitted := emitted, consumed := consumed
        usedBackend := used, state := st2 }
    | (.error e, emitted, consumed, used, st2) =>
      { result := .error e, emitted := emitted, consumed := consumed
        usedBackend := used, state := st2 }
  else if req.method = "cancel" then
    match handleCancel req st with
    | (.ok resp, st2) =>
      { result := .ok (some resp), emitted := [], consumed := 0
        usedBackend := false, state := st2 }
    | (.error e, st2) =>
      { result := .error e, emitted := [], consumed := 0
        usedBackend := false, state := st2 }
  else if req.method = "configure" then
    match handleConfigure req st with
    | (.ok resp, st2) =>
      { result := .ok (some resp), emitted := [], consumed := 0
        usedBackend := false, state := st2 }
    | (.error e, st2) =>
      { result := .error e, emitted := [], consumed := 0
        usedBackend := false, state := st2 }
  else
    { result := .error (methodNotFoundError req.method), emitted := [], consumed := 0
      usedBackend := false, state := st }

/-- Per-connection state of server.ts (`ConnectionState`): the
initialization flag and the in-flight request-id set (a JS `Set` in
insertion order). Timestamps and ip are wall-clock bookkeeping, not
part of any claim. -/
structure ConnState where
  initialized : Bool
  activeRequests : List RId
deriving DecidableEq, Repr

def ConnState.initial : ConnState := { initialized := false, activeRequests := [] }

/-- JS `Set.has`. -/
def setHas : List RId → RId → Bool
  | [], _ => false
  | y :: rest, x => if y = x then true else setHas rest x

/-- JS `Set.add`. -/
def setAdd (s : List RId) (x : RId) : List RId :=
  if setHas s x then s else s ++ [x]

/-- JS `Set.delete`. -/
def setDelete : List RId → RId → List RId
  | [], _ => []
  | y :: rest, x => if y = x then rest else y :: setDelete rest x

/-- State of the `ProtocolManager` instance: the global `initialized`
flag (set only by `markAsInitialized`) and `shutdownRequested`. -/
structure ProtocolState where
  initialized : Bool
  shutdownRequested : Bool
deriving DecidableEq, Repr

def ProtocolState.initial : ProtocolState :=
  { initialized := false, shutdownRequested := false }

def markAsInitialized (p : ProtocolState) : ProtocolState :=
  { p with initialized := true }

def requestShutdown (p : ProtocolState) : ProtocolState :=
  { p with shutdownRequested := true }

/-- protocol.ts `ProtocolManager.validateState`: the error it throws,
if any. Order matters: the not-initialized test runs before the
shutdown test. -/
def validateState (method : String) (p : ProtocolState) : Option MCPError :=
  if method ≠ "initialize" ∧ p.initialized = false then some notInitializedError
  else if p.shutdownRequested = true ∧ method ≠ "exit" then some shuttingDownError
  else none

/-- Whole-server state: the protocol manager, the `clients` map
(connection token to per-connection state, in insertion order), and
the shared handlers instance. -/
structure ServerState where
  protocol : ProtocolState
  clients : List (Nat × ConnState)
  handlers : HandlersState
deriving DecidableEq, Repr

def ServerState.initial : ServerState :=
  { protocol := ProtocolState.initial, clients := [], handlers := HandlersState.initial }

def clientsGet : List (Nat × ConnState) → Nat → Option ConnState
  | [], _ => none
  | (c, cs) :: rest, key => if c = key then some cs else clientsGet rest key

def clientsSet : List (Nat × ConnState) → Nat → ConnState → List (Nat × ConnState)
  | [], key, v => [(key, v)]
  | (c, cs) :: rest, key, v =>
    if c = key then (c, v) :: rest else (c, cs) :: clientsSet rest key v

def clientsDelete : List (Nat × ConnState) → Nat → List (Nat × ConnState)
  | [], _ => []
  | (c, cs) :: rest, key => if c = key then rest else (c, cs) :: clientsDelete rest key

/-- server.ts `handleConnection` entry: register a fresh
`ConnectionState` for an accepted socket. -/
def newConnection (st : ServerState) (conn : Nat) : ServerState :=
  { st with clients := clientsSet st.clients conn ConnState.initial }

/-- The scan of the `handlers.on('response')` listener: first client
(in insertion order) whose in-flight set holds the response id. -/
def findTarget : List (Nat × ConnState) → RId → Option Nat
  | [], _ => none
  | (c, cs) :: rest, rid =>
    if setHas cs.activeRequests rid then some c else findTarget rest rid

/-- Test `response.result?.type === 'stream' && response.result?.done`. -/
def isStreamDone (resp : MCPResponse) : Bool :=
  match resp.result with
  | some (.stream _ true) => true
  | _ => false

/-- Route one emitted response: deliver to the first client holding the
id (dropped with a warning when none does), and on a final stream chunk
delete the id from that client's in-flight set. -/
def routeOne (clients : List (Nat × ConnState)) (resp : MCPResponse) :
    List (Nat × MCPResponse) × List (Nat × ConnState) :=
  match findTarget clients resp.id with
  | none => ([], clients)
  | some c =>
    if isStreamDone resp then
      match clientsGet clients c with
      | some cs =>
        ([(c, resp)],
          clientsSet clients c
            { cs with activeRequests := setDelete cs.activeRequests resp.id })
      | none => ([(c, resp)], clients)
    else ([(c, resp)], clients)

/-- Route a sequence of emitted responses in order, threading the
client map (the listener reads the live map, and its own final-chunk
deletions are the only mutations between emissions). -/
def routeEmissions (clients : List (Nat × ConnState)) :
    List MCPResponse → List (Nat × MCPResponse) × List (Nat × ConnState)
  | [] => ([], clients)
  | r :: rest =>
    let p := routeOne clients r
    let q := routeEmissions p.2 rest
    (p.1 ++ q.1, q.2)

/-- JS `String.prototype.startsWith`, on the character lists. -/
def strStartsWith (s pat : String) : Bool :=
  charsPrefixOf pat.data s.data

/-- server.ts `handleError` code fix-up: a message carrying the Gemini
marker text while still coded INTERNAL_ERROR is remapped to
GEMINI_API_ERROR. -/
def handleErrorMap (e : MCPError) : MCPError :=
  if strStartsWith e.message "Gemini API Error:" ∧ e.code = ERROR_CODES.INTERNAL_ERROR then
    { e with code := ERROR_CODES.GEMINI_API_ERROR }
  else e

/-- Result of processing one inbound message: the responses sent (with
their target connection), the new server state, the chunks pulled from
the backend, and whether the backend was invoked. -/
structure StepOutcome where
  emissions : List (Nat × MCPResponse)
  state : ServerState
  consumed : Nat
  usedBackend : Bool

/-- Catch-block cleanup of the message listener: remove the request id
from the connection's in-flight set, but only when the id is truthy and
present (`if (request?.id && state.activeRequests.has(request.id))`). -/
def catchClients (conn : Nat) (reqId : RId) (clients : List (Nat × ConnState)) :
    List (Nat × ConnState) :=
  if reqId.truthy then
    match clientsGet clients conn with
    | some cs =>
      if setHas cs.activeRequests reqId then
        clientsSet clients conn
          { cs with activeRequests := setDelete cs.activeRequests reqId }
      else clients
    | none => clients
  else clients

/-- A gate failure before admission: send one error response (through
`handleError`) and run the catch-block cleanup. -/
def gateFail (conn : Nat) (reqId : RId) (e : MCPError) (st : ServerState) : StepOutcome :=
  { emissions := [(conn, errorResponse reqId (handleErrorMap e))]
    state := { st with clients := catchClients conn reqId st.clients }
    consumed := 0
    usedBackend := false }

/-- Admission and dispatch (server.ts message listener from
`state.activeRequests.add(request.id)` on): add the id to the
connection's in-flight set, run the handler, route its emitted
responses through the response listener, then either send the direct
response and delete the id, keep the id for a started stream, or send
the caught error and run the catch cleanup. -/
def admitAndDispatch (conn : Nat) (req : MCPRequest) (backend : Backend)
    (cancelAfter : Option Nat) (st : ServerState) (cs : ConnState) : StepOutcome :=
  let cs1 := { cs with activeRequests := setAdd cs.activeRequests req.id }
  let st1 := { st with clients := clientsSet st.clients conn cs1 }
  let ho := handleRequest req backend cancelAfter st1.handlers
  let routed := routeEmissions st1.clients ho.emitted
  let st2 : ServerState := { st1 with clients := routed.2, handlers := ho.state }
  match ho.result with
  | .ok (some resp) =>
    { emissions := routed.1 ++ [(conn, resp)]
      state :=
        { st2 with
            clients :=
              match clientsGet st2.clients conn with
              | some csx =>
                clientsSet st2.clients conn
                  { csx with activeRequests := setDelete csx.activeRequests req.id }
              | none => st2.clients }
      consumed := ho.consumed
      usedBackend := ho.usedBackend }
  | .ok none =>
    { emissions := routed.1, state := st2
      consumed := ho.consumed, usedBackend := ho.usedBackend }
  | .error e =>
    { emissions := routed.1 ++ [(conn, errorResponse req.id (handleErrorMap e))]
      state := { st2 with clients := catchClients conn req.id st2.clients }
      consumed := ho.consumed
      usedBackend := ho.usedBackend }

/-- server.ts `ws.on('message')` listener for a well-formed request
carrying an id, from `this.protocol.validateState(request.method)` on:
global protocol-state validation, the per-connection initialize /
initialization gates, then admission and dispatch. -/
def onMessage (conn : Nat) (req : MCPRequest) (backend : Backend)
    (cancelAfter : Option Nat) (st : ServerState) : StepOutcome :=
  match clientsGet st.clients conn with
  | none => { emissions := [], state := st, consumed := 0, usedBackend := false }
  | some cs =>
    match validateState req.method st.protocol with
    | some e => gateFail conn req.id e st
    | none =>
      if req.method = "initialize" then
        if cs.initialized then gateFail conn req.id alreadyInitializedError st
        else
          let cs0 := { cs with initialized := true }
          let st0 := { st with clients := clientsSet st.clients conn cs0 }
          admitAndDispatch conn req backend cancelAfter st0 cs0
      else if cs.initialized = false ∧ req.method ≠ "shutdown" ∧ req.method ≠ "exit" then
        gateFail conn req.id notInitializedError st
      else
        admitAndDispatch conn req backend cancelAfter st cs

/-- handlers cancellation cascade over a list of ids
(`state.activeRequests.forEach(id => handlers.cancelRequest(id))`). -/
def cancelAll (ids : List RId) (h : HandlersState) : HandlersState :=
  ids.foldl (fun acc rid => cancelRequest rid acc) h

/-- server.ts `cleanUpClient`: cancel every in-flight id of the closing
connection, then drop its entry. -/
def cleanUpClient (conn : Nat) (st : ServerState) : ServerState :=
  match clientsGet st.clients conn with
  | none => st
  | some cs =>
    { st with
        handlers := cancelAll cs.activeRequests st.handlers
        clients := clientsDelete st.clients conn }

/-- State effect of server.ts `shutdown`: mark the protocol as
shutting down, cancel every in-flight id of every connection, close and
clear all connections (the broadcast notification and socket teardown
carry no modelled state). -/
def shutdownStep (st : ServerState) : ServerState :=
  { protocol := requestShutdown st.protocol
    clients := []
    handlers := st.clients.foldl (fun acc c => cancelAll c.2.activeRequests acc) st.handlers }

/-! Helper lemmas about the embedded operations. -/

theorem sigAborted_none (e : Nat) : sigAborted none e = false := rfl

theorem streamLoop_no_abort (id : RId) (streamErr : Option String)
    (chunks : List String) (e : Nat) :
    streamLoop id none streamErr chunks e =
      (chunks.map (fun ch => streamResponse id ch false), chunks.length,
        match streamErr with
        | some m => StreamExit.errored m
        | none => StreamExit.exhausted) := by
  induction chunks generalizing e with
  | nil => cases streamErr <;> simp [streamLoop]
  | cons ch rest ih => simp [streamLoop, sigAborted, ih (e + 1)]

theorem streamLoop_abort (id : RId) (streamErr : Option String)
    (chunks : List String) (k e : Nat) (he : e ≤ k)
    (hk : k - e < chunks.length) :
    streamLoop id (some k) streamErr chunks e =
      ((chunks.take (k - e)).map (fun ch => streamResponse id ch false),
        k - e + 1, .abortedBreak) := by
  induction chunks generalizing e with
  | nil => simp at hk
  | cons ch rest ih =>
    by_cases hke : k ≤ e
    · have hkeq : k = e := le_antisymm hke he
      have htrue : sigAborted (some k) e = true := by
        simp [sigAborted]; omega
      subst hkeq
      simp [streamLoop, htrue]
    · have hfalse : sigAborted (some k) e = false := by
        simp [sigAborted]; omega
      have he1 : e + 1 ≤ k := by omega
      have hk1 : k - (e + 1) < rest.length := by
        simp only [List.length_cons] at hk; omega
      have htake : k - e = (k - (e + 1)) + 1 := by omega
      simp [streamLoop, hfalse, ih (e + 1) he1 hk1, htake]

theorem mapGet_mapSet_self (m : List (RId × Nat)) (k : RId) (v : Nat) :
    mapGet (mapSet m k v) k = some v := by
  induction m with
  | nil => simp [mapSet, mapGet]
  | cons p rest ih =>
    by_cases h : p.1 = k
    · simp [mapSet, mapGet, h]
    · simp [mapSet, mapGet, h, ih]

theorem clientsGet_set_self (l : List (Nat × ConnState)) (k : Nat) (v : ConnState) :
    clientsGet (clientsSet l k v) k = some v := by
  induction l with
  | nil => simp [clientsSet, clientsGet]
  | cons p rest ih =>
    by_cases h : p.1 = k
    · simp [clientsSet, clientsGet, h]
    · simp [clientsSet, clientsGet, h, ih]

theorem setHas_append_self (s : List RId) (x : RId) : setHas (s ++ [x]) x = true := by
  induction s with
  | nil => simp [setHas]
  | cons y rest ih =>
    by_cases hy : y = x
    · simp [setHas, hy]
    · simp [setHas, hy, ih]

theorem setHas_setAdd (s : List RId) (x : RId) : setHas (setAdd s x) x = true := by
  unfold setAdd
  by_cases h : setHas s x
  · simp [h]
  · simp [h, setHas_append_self]

theorem setDelete_append_not_has (s : List RId) (x : RId) (h : setHas s x = false) :
    setDelete (s ++ [x]) x = s := by
  induction s with
  | nil => simp [setDelete]
  | cons y rest ih =>
    simp only [setHas] at h
    by_cases hy : y = x
    · simp [hy] at h
    · rw [if_neg hy] at h
      have hrest := ih h
      simp [setDelete, hy, hrest]

theorem setDelete_setAdd (s : List RId) (x : RId) (h : setHas s x = false) :
    setDelete (setAdd s x) x = s := by
  unfold setAdd
  rw [h]
  simp only [Bool.false_eq_true, if_false]
  exact setDelete_append_not_has s x h

theorem validateState_pass (method : String) (p : ProtocolState)
    (h1 : p.initialized = true) (h2 : p.shutdownRequested = false) :
    validateState method p = none := by
  simp [validateState, h1, h2]

theorem validateState_initialize (p : ProtocolState)
    (h2 : p.shutdownRequested = false) :
    validateState "initialize" p = none := by
  simp [validateState, h2]

theorem validateState_not_initialized (method : String) (p : ProtocolState)
    (hm : method ≠ "initialize") (h : p.initialized = false) :
    validateState method p = some notInitializedError := by
  simp [validateState, hm, h]

theorem routeEmissions_append (clients : List (Nat × ConnState))
    (xs ys : List MCPResponse) :
    routeEmissions clients (xs ++ ys) =
      ((routeEmissions clients xs).1
          ++ (routeEmissions (routeEmissions clients xs).2 ys).1,
        (routeEmissions (routeEmissions clients xs).2 ys).2) := by
  induction xs generalizing clients with
  | nil => simp [routeEmissions]
  | cons r rest ih => simp [routeEmissions, ih, List.append_assoc]

theorem routeEmissions_chunks (c : Nat) (cs : ConnState) (x : RId)
    (chunks : List String) (h : setHas cs.activeRequests x = true) :
    routeEmissions [(c, cs)] (chunks.map (fun ch => streamResponse x ch false)) =
      (chunks.map (fun ch => (c, streamResponse x ch false)), [(c, cs)]) := by
  induction chunks with
  | nil => simp [routeEmissions]
  | cons ch rest ih =>
    have h1 : routeOne [(c, cs)] (streamResponse x ch false) =
        ([(c, streamResponse x ch false)], [(c, cs)]) := by
      simp [routeOne, findTarget, h, isStreamDone, streamResponse]
    simp [routeEmissions, h1, ih]

/-! Claim theorems. -/

/-- C4: a `stream` request with a valid prompt that is never cancelled,
over a backend yielding a finite sequence of N chunks, emits exactly the
N intermediate `done:false` responses (one per chunk, in order, carrying
the chunk's text) followed by exactly one terminal response with content
"" and `done:true`. -/
theorem C4_stream_uncancelled_emissions (req : MCPRequest) (backend : Backend)
    (st : HandlersState)
    (hp : validateRequest req ["prompt"] = true)
    (herr : backend.streamErr = none) :
    (handleStream req backend none st).2.1 =
      backend.streamChunks.map (fun ch => streamResponse req.id ch false)
        ++ [streamResponse req.id "" true] := by
  simp [handleStream, hp, streamLoop_no_abort, herr, sigAborted]

/-- C4 witness: a concrete two-chunk backend. -/
theorem C4_stream_uncancelled_witness :
    validateRequest
        { id := RId.num 3, method := "stream",
          params := some { prompt := some "hi", requestId := none, configuration := false } }
        ["prompt"] = true
    ∧ (handleStream
        { id := RId.num 3, method := "stream",
          params := some { prompt := some "hi", requestId := none, configuration := false } }
        { gen := GenOutcome.ok "", streamChunks := ["a", "b"], streamErr := none }
        none HandlersState.initial).2.1 =
      (["a", "b"].map (fun ch => streamResponse (RId.num 3) ch false))
        ++ [streamResponse (RId.num 3) "" true] :=
  ⟨by decide,
    C4_stream_uncancelled_emissions
      { id := RId.num 3, method := "stream",
        params := some { prompt := some "hi", requestId := none, configuration := false } }
      { gen := GenOutcome.ok "", streamChunks := ["a", "b"], streamErr := none }
      HandlersState.initial (by decide) (by decide)⟩

/-- C3 (counterexample): with backend chunks "a","b" and the
cancellation handle triggered after the first chunk was emitted, the
code emits exactly the one intermediate response and no terminal
response at all for the stream request (the claim demands a terminal
cancellation response), and it pulls 2 chunks from the backend (the
claim demands that no further chunk be consumed after the first). -/
theorem C3_counterexample_cancel_after_first_chunk :
    (handleStream
        { id := RId.num 3, method := "stream",
          params := some { prompt := some "hi", requestId := none, configuration := false } }
        { gen := GenOutcome.ok "", streamChunks := ["a", "b"], streamErr := none }
        (some 1) HandlersState.initial).2.1 =
      [streamResponse (RId.num 3) "a" false]
    ∧ (handleStream
        { id := RId.num 3, method := "stream",
          params := some { prompt := some "hi", requestId := none, configuration := false } }
        { gen := GenOutcome.ok "", streamChunks := ["a", "b"], streamErr := none }
        (some 1) HandlersState.initial).2.2.1 = 2 := by decide

/-- C3 (amended): a stream request with a valid prompt whose
cancellation handle is triggered after the k-th chunk (k < N) emits
exactly the k intermediate responses and then no terminal response of
any kind for that request, and one further chunk (the k+1st) is pulled
from the backend before the loop notices the abort. -/
theorem C3_amended_cancelled_stream (req : MCPRequest) (backend : Backend)
    (st : HandlersState) (k : Nat)
    (hp : validateRequest req ["prompt"] = true)
    (_herr : backend.streamErr = none)
    (hk : k < backend.streamChunks.length) :
    (handleStream req backend (some k) st).2.1 =
      (backend.streamChunks.take k).map (fun ch => streamResponse req.id ch false)
    ∧ (handleStream req backend (some k) st).2.2.1 = k + 1 := by
  have hl := streamLoop_abort req.id backend.streamErr backend.streamChunks k 0
    (Nat.zero_le k) (by simpa using hk)
  constructor <;> simp [handleStream, hp, hl]

/-- C3 amended witness: three chunks, cancelled after the first. -/
theorem C3_amended_witness :
    (1 < (["a", "b", "c"] : List String).length)
    ∧ (handleStream
        { id := RId.num 3, method := "stream",
          params := some { prompt := some "hi", requestId := none, configuration := false } }
        { gen := GenOutcome.ok "", streamChunks := ["a", "b", "c"], streamErr := none }
        (some 1) HandlersState.initial).2.1 =
      ((["a", "b", "c"] : List String).take 1).map
        (fun ch => streamResponse (RId.num 3) ch false)
    ∧ (handleStream
        { id := RId.num 3, method := "stream",
          params := some { prompt := some "hi", requestId := none, configuration := false } }
        { gen := GenOutcome.ok "", streamChunks := ["a", "b", "c"], streamErr := none }
        (some 1) HandlersState.initial).2.2.1 = 1 + 1 :=
  ⟨by decide,
    (C3_amended_cancelled_stream
      { id := RId.num 3, method := "stream",
        params := some { prompt := some "hi", requestId := none, configuration := false } }
      { gen := GenOutcome.ok "", streamChunks := ["a", "b", "c"], streamErr := none }
      HandlersState.initial 1 (by decide) (by decide) (by decide)).1,
    (C3_amended_cancelled_stream
      { id := RId.num 3, method := "stream",
        params := some { prompt := some "hi", requestId := none, configuration := false } }
      { gen := GenOutcome.ok "", streamChunks := ["a", "b", "c"], streamErr := none }
      HandlersState.initial 1 (by decide) (by decide) (by decide)).2⟩

/-- C5: a cancel request that carries a `requestId` parameter always
returns the success result `cancelled:true` and never an error, whatever
the handler state — in particular when no matching in-flight handle
exists, and also when the same identifier is cancelled a second time
immediately after. -/
theorem C5_cancel_always_succeeds (req : MCPRequest) (st : HandlersState)
    (h : validateRequest req ["requestId"] = true) :
    (handleCancel req st).1 = .ok (cancelledResponse req.id)
    ∧ (handleCancel req (handleCancel req st).2).1 = .ok (cancelledResponse req.id) := by
  rcases hq : req.params with _ | p
  · simp [validateRequest, hq] at h
  · rcases hr : p.requestId with _ | rid
    · simp [validateRequest, hq, hasKey, hr] at h
    · cases hm : mapGet st.activeRequests rid with
      | none =>
        constructor <;> simp [handleCancel, hq, hr, hm]
      | some tok =>
        refine ⟨by simp [handleCancel, hq, hr, hm], ?_⟩
        simp only [handleCancel, hq, hr, hm]
        cases hm2 : mapGet (mapDelete st.activeRequests rid) rid <;> simp [hm2]

/-- C5 witness: cancelling an identifier with no in-flight handle, twice. -/
theorem C5_cancel_witness :
    validateRequest
        { id := RId.num 4, method := "cancel",
          params := some { prompt := none, requestId := some (RId.num 3), configuration := false } }
        ["requestId"] = true
    ∧ (handleCancel
        { id := RId.num 4, method := "cancel",
          params := some { prompt := none, requestId := some (RId.num 3), configuration := false } }
        HandlersState.initial).1 = .ok (cancelledResponse (RId.num 4))
    ∧ (handleCancel
        { id := RId.num 4, method := "cancel",
          params := some { prompt := none, requestId := some (RId.num 3), configuration := false } }
        (handleCancel
          { id := RId.num 4, method := "cancel",
            params := some { prompt := none, requestId := some (RId.num 3), configuration := false } }
          HandlersState.initial).2).1 = .ok (cancelledResponse (RId.num 4)) :=
  ⟨by decide,
    (C5_cancel_always_succeeds
      { id := RId.num 4, method := "cancel",
        params := some { prompt := none, requestId := some (RId.num 3), configuration := false } }
      HandlersState.initial (by decide)).1,
    (C5_cancel_always_succeeds
      { id := RId.num 4, method := "cancel",
        params := some { prompt := none, requestId := some (RId.num 3), configuration := false } }
      HandlersState.initial (by decide)).2⟩

/-- C1 (code bug): on a fresh connection, `initialize` succeeds, but the
immediately following `generate` with a valid prompt and a backend
returning "hello" is rejected with the -32002 "Server not initialized"
error and the backend is never invoked — because
`ProtocolManager.markAsInitialized` has no call site, the global
`initialized` flag consulted by `validateState` stays false forever.
The claim (and the repository's own server test and docs) expects one
success response carrying "hello". -/
theorem C1_initialize_then_generate_rejected :
    (onMessage 0 { id := RId.num 1, method := "initialize", params := none }
        { gen := GenOutcome.ok "hello", streamChunks := [], streamErr := none } none
        (newConnection ServerState.initial 0)).emissions =
      [(0, initializeResponse (RId.num 1))]
    ∧ (onMessage 0
        { id := RId.num 2, method := "generate",
          params := some { prompt := some "hi", requestId := none, configuration := false } }
        { gen := GenOutcome.ok "hello", streamChunks := [], streamErr := none } none
        (onMessage 0 { id := RId.num 1, method := "initialize", params := none }
          { gen := GenOutcome.ok "hello", streamChunks := [], streamErr := none } none
          (newConnection ServerState.initial 0)).state).emissions =
      [(0, errorResponse (RId.num 2) notInitializedError)]
    ∧ (onMessage 0
        { id := RId.num 2, method := "generate",
          params := some { prompt := some "hi", requestId := none, configuration := false } }
        { gen := GenOutcome.ok "hello", streamChunks := [], streamErr := none } none
        (onMessage 0 { id := RId.num 1, method := "initialize", params := none }
          { gen := GenOutcome.ok "hello", streamChunks := [], streamErr := none } none
          (newConnection ServerState.initial 0)).state).usedBackend = false := by
  decide

theorem handleErrorMap_notInitialized :
    handleErrorMap notInitializedError = notInitializedError := by decide

theorem handleErrorMap_alreadyInitialized :
    handleErrorMap alreadyInitializedError = alreadyInitializedError := by decide

theorem handleErrorMap_shuttingDown :
    handleErrorMap shuttingDownError = shuttingDownError := by decide

theorem admitAndDispatch_protocol (conn : Nat) (req : MCPRequest) (backend : Backend)
    (ca : Option Nat) (st : ServerState) (cs : ConnState) :
    (admitAndDispatch conn req backend ca st cs).state.protocol = st.protocol := by
  simp only [admitAndDispatch]
  split <;> rfl

theorem onMessage_protocol_unchanged (conn : Nat) (req : MCPRequest) (backend : Backend)
    (ca : Option Nat) (st : ServerState) :
    (onMessage conn req backend ca st).state.protocol = st.protocol := by
  unfold onMessage
  split
  · rfl
  · split
    · rfl
    · split
      · split
        · rfl
        · exact admitAndDispatch_protocol ..
      · split
        · rfl
        · exact admitAndDispatch_protocol ..

/-- C7: on a connection whose initialization flag is false, a request
with any method other than `initialize` is rejected with the
NotInitialized error: one error response is sent, the backend is not
reached, and the server state is left exactly unchanged. The auxiliary
hypotheses are invariants of every run of this program: the global
protocol flag is never set (`markAsInitialized` has no call site, see
`onMessage_protocol_unchanged`), and a connection whose flag is false
has admitted nothing, so its in-flight set cannot hold the id. -/
theorem C7_uninitialized_connection_rejected (st : ServerState) (conn : Nat)
    (cs : ConnState) (req : MCPRequest) (backend : Backend) (ca : Option Nat)
    (hc : clientsGet st.clients conn = some cs)
    (_hflag : cs.initialized = false)
    (hglobal : st.protocol.initialized = false)
    (hm : req.method ≠ "initialize")
    (hid : setHas cs.activeRequests req.id = false) :
    onMessage conn req backend ca st =
      { emissions := [(conn, errorResponse req.id notInitializedError)]
        state := st, consumed := 0, usedBackend := false } := by
  have hv := validateState_not_initialized req.method st.protocol hm hglobal
  have hcc : catchClients conn req.id st.clients = st.clients := by
    unfold catchClients
    cases htr : req.id.truthy
    · simp
    · simp [hc, hid]
  simp [onMessage, hc, hv, gateFail, hcc, handleErrorMap_notInitialized]

/-- C7 witness: an uninitialized connection receiving a generate request. -/
theorem C7_uninitialized_witness :
    clientsGet (newConnection ServerState.initial 0).clients 0 = some ConnState.initial
    ∧ onMessage 0
        { id := RId.num 2, method := "generate",
          params := some { prompt := some "hi", requestId := none, configuration := false } }
        { gen := GenOutcome.ok "hello", streamChunks := [], streamErr := none } none
        (newConnection ServerState.initial 0) =
      { emissions := [(0, errorResponse (RId.num 2) notInitializedError)]
        state := newConnection ServerState.initial 0, consumed := 0, usedBackend := false } :=
  ⟨by decide,
    C7_uninitialized_connection_rejected (newConnection ServerState.initial 0) 0
      ConnState.initial
      { id := RId.num 2, method := "generate",
        params := some { prompt := some "hi", requestId := none, configuration := false } }
      { gen := GenOutcome.ok "hello", streamChunks := [], streamErr := none } none
      (by decide) (by decide) (by decide) (by decide) (by decide)⟩

/-- C8: on a connection with its flag still false (and no shutdown in
progress), a first `initialize` request succeeds with the capability
result and sets the flag to true; a second `initialize` on the same
connection is rejected with the -32600 "Server already initialized for
this connection" error (the wire form of AlreadyInitialized), and the
flag remains true throughout. -/
theorem C8_second_initialize_rejected (st : ServerState) (conn : Nat) (cs : ConnState)
    (id1 id2 : RId) (p1 p2 : Option RequestParams) (backend : Backend) (ca : Option Nat)
    (hc : clientsGet st.clients conn = some cs)
    (hflag : cs.initialized = false)
    (hsd : st.protocol.shutdownRequested = false)
    (hid1 : setHas cs.activeRequests id1 = false)
    (hid2 : setHas cs.activeRequests id2 = false) :
    (onMessage conn { id := id1, method := "initialize", params := p1 } backend ca st).emissions
      = [(conn, initializeResponse id1)]
    ∧ clientsGet (onMessage conn { id := id1, method := "initialize", params := p1 }
        backend ca st).state.clients conn
      = some { initialized := true, activeRequests := cs.activeRequests }
    ∧ (onMessage conn { id := id2, method := "initialize", params := p2 } backend ca
        (onMessage conn { id := id1, method := "initialize", params := p1 }
          backend ca st).state).emissions
      = [(conn, errorResponse id2 alreadyInitializedError)]
    ∧ clientsGet (onMessage conn { id := id2, method := "initialize", params := p2 } backend ca
        (onMessage conn { id := id1, method := "initialize", params := p1 }
          backend ca st).state).state.clients conn
      = some { initialized := true, activeRequests := cs.activeRequests } := by
  have hv1 := validateState_initialize st.protocol hsd
  have hstep1 :
      onMessage conn { id := id1, method := "initialize", params := p1 } backend ca st =
        { emissions := [(conn, initializeResponse id1)]
          state :=
            { st with clients := clientsSet (clientsSet (clientsSet st.clients conn { cs with initialized := true }) conn { cs with initialized := true, activeRequests := setAdd cs.activeRequests id1 }) conn { initialized := true, activeRequests := cs.activeRequests } }
          consumed := 0, usedBackend := false } := by
    simp only [onMessage, hc, hv1, hflag, Bool.false_eq_true, if_false, if_pos rfl]
    simp only [admitAndDispatch, handleRequest, if_pos rfl, routeEmissions]
    simp [clientsGet_set_self, setDelete_setAdd _ _ hid1]
  refine ⟨by rw [hstep1], by rw [hstep1]; exact clientsGet_set_self .., ?_, ?_⟩
  · rw [hstep1]
    have hc2 : clientsGet
        (clientsSet
          (clientsSet (clientsSet st.clients conn { cs with initialized := true }) conn
            { cs with initialized := true, activeRequests := setAdd cs.activeRequests id1 })
          conn { initialized := true, activeRequests := cs.activeRequests }) conn =
        some { initialized := true, activeRequests := cs.activeRequests } :=
      clientsGet_set_self ..
    have hv2 := validateState_initialize st.protocol hsd
    simp [onMessage, hc2, hv2, gateFail, handleErrorMap_alreadyInitialized]
  · rw [hstep1]
    have hc2 : clientsGet
        (clientsSet
          (clientsSet (clientsSet st.clients conn { cs with initialized := true }) conn
            { cs with initialized := true, activeRequests := setAdd cs.activeRequests id1 })
          conn { initialized := true, activeRequests := cs.activeRequests }) conn =
        some { initialized := true, activeRequests := cs.activeRequests } :=
      clientsGet_set_self ..
    have hv2 := validateState_initialize st.protocol hsd
    have hcc : catchClients conn id2
        (clientsSet
          (clientsSet (clientsSet st.clients conn { cs with initialized := true }) conn
            { cs with initialized := true, activeRequests := setAdd cs.activeRequests id1 })
          conn { initialized := true, activeRequests := cs.activeRequests }) =
        (clientsSet
          (clientsSet (clientsSet st.clients conn { cs with initialized := true }) conn
            { cs with initialized := true, activeRequests := setAdd cs.activeRequests id1 })
          conn { initialized := true, activeRequests := cs.activeRequests }) := by
      unfold catchClients
      cases htr : id2.truthy
      · simp
      · simp [hc2, hid2]
    simp [onMessage, hc2, hv2, gateFail, hcc, hc2]

/-- C8 witness: a fresh connection initialized twice. -/
theorem C8_second_initialize_witness :
    clientsGet (newConnection ServerState.initial 0).clients 0 = some ConnState.initial
    ∧ (onMessage 0 { id := RId.num 1, method := "initialize", params := none }
        { gen := GenOutcome.ok "", streamChunks := [], streamErr := none } none
        (newConnection ServerState.initial 0)).emissions
      = [(0, initializeResponse (RId.num 1))]
    ∧ (onMessage 0 { id := RId.num 8, method := "initialize", params := none }
        { gen := GenOutcome.ok "", streamChunks := [], streamErr := none } none
        (onMessage 0 { id := RId.num 1, method := "initialize", params := none }
          { gen := GenOutcome.ok "", streamChunks := [], streamErr := none } none
          (newConnection ServerState.initial 0)).state).emissions
      = [(0, errorResponse (RId.num 8) alreadyInitializedError)] :=
  ⟨by decide,
    (C8_second_initialize_rejected (newConnection ServerState.initial 0) 0 ConnState.initial
      (RId.num 1) (RId.num 8) none none
      { gen := GenOutcome.ok "", streamChunks := [], streamErr := none } none
      (by decide) (by decide) (by decide) (by decide) (by decide)).1,
    (C8_second_initialize_rejected (newConnection ServerState.initial 0) 0 ConnState.initial
      (RId.num 1) (RId.num 8) none none
      { gen := GenOutcome.ok "", streamChunks := [], streamErr := none } none
      (by decide) (by decide) (by decide) (by decide) (by decide)).2.2.1⟩

/-- C9 (counterexample): with shutdown triggered (the coordinator has
run `requestShutdown`), a generate request on an initialized connection
is rejected with the -32002 NotInitialized error, not with the -32600
AlreadyClosing ("Server is shutting down") error the claim demands:
`validateState` tests the never-set global initialization flag before
the shutdown flag. -/
theorem C9_counterexample_post_shutdown_generate :
    (onMessage 0
        { id := RId.num 2, method := "generate",
          params := some { prompt := some "hi", requestId := none, configuration := false } }
        { gen := GenOutcome.ok "hello", streamChunks := [], streamErr := none } none
        { protocol := requestShutdown ProtocolState.initial
          clients := [(0, { initialized := true, activeRequests := [] })]
          handlers := HandlersState.initial }).emissions =
      [(0, errorResponse (RId.num 2) notInitializedError)]
    ∧ notInitializedError ≠ shuttingDownError := by decide

/-- C9 (amended): once shutdown has been triggered, no request is ever
admitted and none reaches the backend: the attempt fails fast with one
error response — the AlreadyClosing error ("Server is shutting down")
when the method is `initialize`, and the NotInitialized error for every
other method, because the global initialization flag (never set in this
program) is checked before the shutdown flag. -/
theorem C9_amended_no_admission_after_shutdown (st : ServerState) (conn : Nat)
    (cs : ConnState) (req : MCPRequest) (backend : Backend) (ca : Option Nat)
    (hc : clientsGet st.clients conn = some cs)
    (hsd : st.protocol.shutdownRequested = true)
    (hglobal : st.protocol.initialized = false) :
    (onMessage conn req backend ca st).usedBackend = false
    ∧ (onMessage conn req backend ca st).consumed = 0
    ∧ (onMessage conn req backend ca st).emissions =
        [(conn, errorResponse req.id
          (if req.method = "initialize" then shuttingDownError else notInitializedError))] := by
  by_cases hm : req.method = "initialize"
  · have hv : validateState "initialize" st.protocol = some shuttingDownError := by
      simp [validateState, hsd]
    simp [onMessage, hc, hm, hv, gateFail, handleErrorMap_shuttingDown]
  · have hv := validateState_not_initialized req.method st.protocol hm hglobal
    simp [onMessage, hc, hv, gateFail, handleErrorMap_notInitialized, hm]

/-- C9 amended witness: a post-shutdown generate request. -/
theorem C9_amended_witness :
    clientsGet [(0, ({ initialized := true, activeRequests := [] } : ConnState))] 0 =
      some { initialized := true, activeRequests := [] }
    ∧ (onMessage 0
        { id := RId.num 2, method := "generate",
          params := some { prompt := some "hi", requestId := none, configuration := false } }
        { gen := GenOutcome.ok "hello", streamChunks := [], streamErr := none } none
        { protocol := requestShutdown ProtocolState.initial
          clients := [(0, { initialized := true, activeRequests := [] })]
          handlers := HandlersState.initial }).usedBackend = false
    ∧ (onMessage 0
        { id := RId.num 2, method := "generate",
          params := some { prompt := some "hi", requestId := none, configuration := false } }
        { gen := GenOutcome.ok "hello", streamChunks := [], streamErr := none } none
        { protocol := requestShutdown ProtocolState.initial
          clients := [(0, { initialized := true, activeRequests := [] })]
          handlers := HandlersState.initial }).emissions =
      [(0, errorResponse (RId.num 2)
        (if ("generate" : String) = "initialize" then shuttingDownError
          else notInitializedError))] :=
  ⟨by decide,
    (C9_amended_no_admission_after_shutdown
      { protocol := requestShutdown ProtocolState.initial
        clients := [(0, { initialized := true, activeRequests := [] })]
        handlers := HandlersState.initial } 0
      { initialized := true, activeRequests := [] }
      { id := RId.num 2, method := "generate",
        params := some { prompt := some "hi", requestId := none, configuration := false } }
      { gen := GenOutcome.ok "hello", streamChunks := [], streamErr := none } none
      (by decide) (by decide) (by decide)).1,
    (C9_amended_no_admission_after_shutdown
      { protocol := requestShutdown ProtocolState.initial
        clients := [(0, { initialized := true, activeRequests := [] })]
        handlers := HandlersState.initial } 0
      { initialized := true, activeRequests := [] }
      { id := RId.num 2, method := "generate",
        params := some { prompt := some "hi", requestId := none, configuration := false } }
      { gen := GenOutcome.ok "hello", streamChunks := [], streamErr := none } none
      (by decide) (by decide) (by decide)).2.2⟩

theorem setAdd_of_has (s : List RId) (x : RId) (h : setHas s x = true) :
    setAdd s x = s := by
  simp [setAdd, h]

/-- C6 (counterexample): a generate request whose identifier 5 is
already in the connection's in-flight set (and has a live controller,
token 0, in the shared handler map) is admitted and answered with a
success response — there is no DuplicateRequestId error anywhere in the
code — and a second, fresh controller is created for the same
identifier (the token counter advances), replacing the original
binding. -/
theorem C6_counterexample_duplicate_id_admitted :
    (onMessage 0
        { id := RId.num 5, method := "generate",
          params := some { prompt := some "hi", requestId := none, configuration := false } }
        { gen := GenOutcome.ok "hello", streamChunks := [], streamErr := none } none
        { protocol := markAsInitialized ProtocolState.initial
          clients := [(0, { initialized := true, activeRequests := [RId.num 5] })]
          handlers := { activeRequests := [(RId.num 5, 0)], nextToken := 1, aborted := [] } }).emissions =
      [(0, completionResponse (RId.num 5) "hello")]
    ∧ (onMessage 0
        { id := RId.num 5, method := "generate",
          params := some { prompt := some "hi", requestId := none, configuration := false } }
        { gen := GenOutcome.ok "hello", streamChunks := [], streamErr := none } none
        { protocol := markAsInitialized ProtocolState.initial
          clients := [(0, { initialized := true, activeRequests := [RId.num 5] })]
          handlers := { activeRequests := [(RId.num 5, 0)], nextToken := 1, aborted := [] } }).state.handlers.nextToken = 2 := by
  decide

/-- C6 (amended): admitting a request whose identifier is already in
the connection's in-flight set is not rejected — no DuplicateRequestId
error exists. The `Set.add` is a no-op, the handler registers a fresh
controller that silently replaces any existing binding under that bare
identifier in the shared map, and when the duplicate completes, the
identifier — still owned by the original request — is deleted from both
the in-flight set and the map. -/
theorem C6_amended_duplicate_id_overwrites (conn : Nat) (cs : ConnState)
    (prot : ProtocolState) (h : HandlersState) (x : RId) (p : RequestParams)
    (backend : Backend) (t : String)
    (hinit : cs.initialized = true)
    (hglob : prot.initialized = true)
    (hsd : prot.shutdownRequested = false)
    (hp : p.prompt.isSome = true)
    (hdup : setHas cs.activeRequests x = true)
    (ht : backend.gen = GenOutcome.ok t) :
    (onMessage conn { id := x, method := "generate", params := some p } backend none
        { protocol := prot, clients := [(conn, cs)], handlers := h }).emissions =
      [(conn, completionResponse x t)]
    ∧ clientsGet (onMessage conn { id := x, method := "generate", params := some p }
        backend none
        { protocol := prot, clients := [(conn, cs)], handlers := h }).state.clients conn =
      some { cs with activeRequests := setDelete cs.activeRequests x }
    ∧ (onMessage conn { id := x, method := "generate", params := some p } backend none
        { protocol := prot, clients := [(conn, cs)], handlers := h }).state.handlers.nextToken
      = h.nextToken + 1
    ∧ (onMessage conn { id := x, method := "generate", params := some p } backend none
        { protocol := prot, clients := [(conn, cs)], handlers := h }).state.handlers.activeRequests
      = mapDelete (mapSet h.activeRequests x h.nextToken) x := by
  have hv : validateState "generate" prot = none := validateState_pass _ _ hglob hsd
  have hval : validateRequest { id := x, method := "generate", params := some p }
      ["prompt"] = true := by
    simp [validateRequest, List.all, hasKey, hp]
  simp [onMessage, clientsGet, hv, hinit, admitAndDispatch, handleRequest,
    handleGenerate, hval, ht, setAdd_of_has _ _ hdup, routeEmissions, clientsSet,
    clientsGet_set_self]

/-- C6 amended witness: duplicate identifier 5 with a live handle. -/
theorem C6_amended_witness :
    setHas [RId.num 5] (RId.num 5) = true
    ∧ (onMessage 0
        { id := RId.num 5, method := "generate",
          params := some { prompt := some "hi", requestId := none, configuration := false } }
        { gen := GenOutcome.ok "hello", streamChunks := [], streamErr := none } none
        { protocol := { initialized := true, shutdownRequested := false }
          clients := [(0, { initialized := true, activeRequests := [RId.num 5] })]
          handlers := { activeRequests := [(RId.num 5, 0)], nextToken := 1, aborted := [] } }).state.handlers.activeRequests
      = mapDelete (mapSet [(RId.num 5, 0)] (RId.num 5) 1) (RId.num 5) :=
  ⟨by decide,
    (C6_amended_duplicate_id_overwrites 0
      { initialized := true, activeRequests := [RId.num 5] }
      { initialized := true, shutdownRequested := false }
      { activeRequests := [(RId.num 5, 0)], nextToken := 1, aborted := [] }
      (RId.num 5)
      { prompt := some "hi", requestId := none, configuration := false }
      { gen := GenOutcome.ok "hello", streamChunks := [], streamErr := none } "hello"
      (by decide) (by decide) (by decide) (by decide) (by decide) (by decide)).2.2.2⟩

/-- C10: the cancellation-handle map of the handlers is keyed by the
bare request identifier and shared across all connections. First part:
whenever some connection's request with identifier X has its controller
(token tA) registered in the shared map, a cancel request naming
requestId X sent by any initialized connection B — the owner's identity
plays no role — aborts that controller, removes the binding from the
shared map and answers B with `cancelled:true`. Second part: admitting
a stream request with the same bare identifier X on B creates a fresh
controller that silently replaces the existing binding (the original
controller tA is never aborted), after which the stream's own cleanup
deletes the binding. -/
theorem C10_shared_cancellation_map (st : ServerState) (b : Nat) (csB : ConnState)
    (x y : RId) (tA : Nat) (backend : Backend) (ca : Option Nat) (p : RequestParams)
    (hc : clientsGet st.clients b = some csB)
    (hinit : csB.initialized = true)
    (hglob : st.protocol.initialized = true)
    (hsd : st.protocol.shutdownRequested = false)
    (hx : mapGet st.handlers.activeRequests x = some tA)
    (hrq : p.requestId = some x)
    (hpr : p.prompt.isSome = true) :
    ((onMessage b { id := y, method := "cancel", params := some p } backend ca st).emissions
        = [(b, cancelledResponse y)]
      ∧ (onMessage b { id := y, method := "cancel", params := some p }
          backend ca st).state.handlers.aborted = tA :: st.handlers.aborted
      ∧ (onMessage b { id := y, method := "cancel", params := some p }
          backend ca st).state.handlers.activeRequests
        = mapDelete st.handlers.activeRequests x)
    ∧ (mapGet (mapSet st.handlers.activeRequests x st.handlers.nextToken) x
        = some st.handlers.nextToken
      ∧ (onMessage b { id := x, method := "stream", params := some p }
          backend ca st).state.handlers.activeRequests
        = mapDelete (mapSet st.handlers.activeRequests x st.handlers.nextToken) x
      ∧ (onMessage b { id := x, method := "stream", params := some p }
          backend ca st).state.handlers.aborted = st.handlers.aborted) := by
  have hvc : validateState "cancel" st.protocol = none := validateState_pass _ _ hglob hsd
  have hvs : validateState "stream" st.protocol = none := validateState_pass _ _ hglob hsd
  have hvalp : validateRequest { id := x, method := "stream", params := some p }
      ["prompt"] = true := by
    simp [validateRequest, List.all, hasKey, hpr]
  refine ⟨?_, mapGet_mapSet_self .., ?_, ?_⟩
  · simp [onMessage, hc, hvc, hinit, admitAndDispatch, handleRequest, handleCancel,
      hrq, hx, routeEmissions]
  · simp [onMessage, hc, hvs, hinit, admitAndDispatch, handleRequest, handleStream, hvalp]
  · simp [onMessage, hc, hvs, hinit, admitAndDispatch, handleRequest, handleStream, hvalp]

/-- C10 witness: A's stream (id 9, token 4) in the shared map; B (conn 1)
cancels it. -/
theorem C10_shared_map_witness :
    clientsGet [(0, ({ initialized := true, activeRequests := [RId.num 9] } : ConnState)),
        (1, ({ initialized := true, activeRequests := [] } : ConnState))] 1 =
      some { initialized := true, activeRequests := [] }
    ∧ mapGet [(RId.num 9, 4)] (RId.num 9) = some 4
    ∧ (onMessage 1
        { id := RId.num 4, method := "cancel",
          params := some { prompt := some "hi", requestId := some (RId.num 9), configuration := false } }
        { gen := GenOutcome.ok "", streamChunks := [], streamErr := none } none
        { protocol := { initialized := true, shutdownRequested := false }
          clients := [(0, { initialized := true, activeRequests := [RId.num 9] }),
            (1, { initialized := true, activeRequests := [] })]
          handlers := { activeRequests := [(RId.num 9, 4)], nextToken := 5, aborted := [] } }).emissions
      = [(1, cancelledResponse (RId.num 4))]
    ∧ (onMessage 1
        { id := RId.num 4, method := "cancel",
          params := some { prompt := some "hi", requestId := some (RId.num 9), configuration := false } }
        { gen := GenOutcome.ok "", streamChunks := [], streamErr := none } none
        { protocol := { initialized := true, shutdownRequested := false }
          clients := [(0, { initialized := true, activeRequests := [RId.num 9] }),
            (1, { initialized := true, activeRequests := [] })]
          handlers := { activeRequests := [(RId.num 9, 4)], nextToken := 5, aborted := [] } }).state.handlers.aborted
      = 4 :: [] :=
  ⟨by decide, by decide,
    ((C10_shared_cancellation_map
      { protocol := { initialized := true, shutdownRequested := false }
        clients := [(0, { initialized := true, activeRequests := [RId.num 9] }),
          (1, { initialized := true, activeRequests := [] })]
        handlers := { activeRequests := [(RId.num 9, 4)], nextToken := 5, aborted := [] } }
      1 { initialized := true, activeRequests := [] } (RId.num 9) (RId.num 4) 4
      { gen := GenOutcome.ok "", streamChunks := [], streamErr := none } none
      { prompt := some "hi", requestId := some (RId.num 9), configuration := false }
      (by decide) (by decide) (by decide) (by decide) (by decide) (by decide)
      (by decide)).1).1,
    ((C10_shared_cancellation_map
      { protocol := { initialized := true, shutdownRequested := false }
        clients := [(0, { initialized := true, activeRequests := [RId.num 9] }),
          (1, { initialized := true, activeRequests := [] })]
        handlers := { activeRequests := [(RId.num 9, 4)], nextToken := 5, aborted := [] } }
      1 { initialized := true, activeRequests := [] } (RId.num 9) (RId.num 4) 4
      { gen := GenOutcome.ok "", streamChunks := [], streamErr := none } none
      { prompt := some "hi", requestId := some (RId.num 9), configuration := false }
      (by decide) (by decide) (by decide) (by decide) (by decide) (by decide)
      (by decide)).1).2.1⟩

/-- C2 (counterexample): a stream request (id 7) admitted on an
initialized connection, over a backend whose iterator fails after one
chunk, produces its terminal error response — yet identifier 7 is still
in the connection's in-flight set afterwards. The terminal response and
the removal are not bracketed as the claim demands: the response
listener only removes ids on `done:true` stream chunks, and the message
listener removes nothing for a request whose handler returned null. -/
theorem C2_counterexample_stream_error_dangling :
    (onMessage 0
        { id := RId.num 7, method := "stream",
          params := some { prompt := some "hi", requestId := none, configuration := false } }
        { gen := GenOutcome.ok "", streamChunks := ["a"], streamErr := some "boom" } none
        { protocol := markAsInitialized ProtocolState.initial
          clients := [(0, { initialized := true, activeRequests := [] })]
          handlers := HandlersState.initial }).emissions =
      [(0, streamResponse (RId.num 7) "a" false),
        (0, errorResponse (RId.num 7) (handleApiError "boom"))]
    ∧ clientsGet (onMessage 0
        { id := RId.num 7, method := "stream",
          params := some { prompt := some "hi", requestId := none, configuration := false } }
        { gen := GenOutcome.ok "", streamChunks := ["a"], streamErr := some "boom" } none
        { protocol := markAsInitialized ProtocolState.initial
          clients := [(0, { initialized := true, activeRequests := [] })]
          handlers := HandlersState.initial }).state.clients 0 =
      some { initialized := true, activeRequests := [RId.num 7] } := by decide

/-- C2 (amended): on a single-connection server, an admitted
non-streaming `generate` request produces exactly one terminal response
and its identifier is removed from the in-flight set at that moment,
and a stream that completes naturally has its identifier removed by the
response listener exactly when the `done:true` terminal chunk is
delivered; but a stream whose backend fails mid-flight emits its
terminal error response while its identifier stays in the in-flight set
(a dangling entry, reclaimed only by connection close or shutdown), and
a stream cancelled mid-flight emits no terminal response at all (see
the C3 theorems). -/
theorem C2_amended_inflight_bracket (conn : Nat) (cs : ConnState)
    (prot : ProtocolState) (h : HandlersState) (x : RId) (p : RequestParams)
    (backend : Backend) (t m : String)
    (hinit : cs.initialized = true)
    (hglob : prot.initialized = true)
    (hsd : prot.shutdownRequested = false)
    (hstale : setHas cs.activeRequests x = false)
    (hp : p.prompt.isSome = true) :
    (backend.gen = GenOutcome.ok t →
      (onMessage conn { id := x, method := "generate", params := some p } backend none
          { protocol := prot, clients := [(conn, cs)], handlers := h }).emissions =
        [(conn, completionResponse x t)]
      ∧ clientsGet (onMessage conn { id := x, method := "generate", params := some p }
          backend none
          { protocol := prot, clients := [(conn, cs)], handlers := h }).state.clients conn =
        some cs)
    ∧ (backend.streamErr = none →
      (onMessage conn { id := x, method := "stream", params := some p } backend none
          { protocol := prot, clients := [(conn, cs)], handlers := h }).emissions =
        (backend.streamChunks.map (fun ch => (conn, streamResponse x ch false)))
          ++ [(conn, streamResponse x "" true)]
      ∧ clientsGet (onMessage conn { id := x, method := "stream", params := some p }
          backend none
          { protocol := prot, clients := [(conn, cs)], handlers := h }).state.clients conn =
        some cs)
    ∧ (backend.streamErr = some m →
      (onMessage conn { id := x, method := "stream", params := some p } backend none
          { protocol := prot, clients := [(conn, cs)], handlers := h }).emissions =
        (backend.streamChunks.map (fun ch => (conn, streamResponse x ch false)))
          ++ [(conn, errorResponse x (handleApiError m))]
      ∧ clientsGet (onMessage conn { id := x, method := "stream", params := some p }
          backend none
          { protocol := prot, clients := [(conn, cs)], handlers := h }).state.clients conn =
        some { cs with activeRequests := setAdd cs.activeRequests x }) := by
  obtain ⟨csi, csa⟩ := cs
  simp only at hinit hstale
  subst hinit
  have hvg : validateState "generate" prot = none := validateState_pass _ _ hglob hsd
  have hvs : validateState "stream" prot = none := validateState_pass _ _ hglob hsd
  have hvalg : validateRequest { id := x, method := "generate", params := some p }
      ["prompt"] = true := by
    simp [validateRequest, List.all, hasKey, hp]
  have hvals : validateRequest { id := x, method := "stream", params := some p }
      ["prompt"] = true := by
    simp [validateRequest, List.all, hasKey, hp]
  have h1 : setHas (setAdd csa x) x = true := setHas_setAdd ..
  have hchunks := routeEmissions_chunks conn
    { initialized := true, activeRequests := setAdd csa x } x backend.streamChunks h1
  refine ⟨fun hgen => ?_, fun herr => ?_, fun herr => ?_⟩
  · simp [onMessage, clientsGet, hvg, admitAndDispatch, handleRequest,
      handleGenerate, hvalg, hgen, routeEmissions, clientsSet, clientsGet_set_self,
      setDelete_setAdd _ _ hstale]
  · have hs : handleStream { id := x, method := "stream", params := some p }
        backend none h =
        (.ok (),
          backend.streamChunks.map (fun ch => streamResponse x ch false)
            ++ [streamResponse x "" true],
          backend.streamChunks.length, true,
          { h with nextToken := h.nextToken + 1, activeRequests := mapDelete (mapSet h.activeRequests x h.nextToken) x }) := by
      simp [handleStream, hvals, streamLoop_no_abort, herr, sigAborted]
    have hfin : routeOne [(conn, { initialized := true, activeRequests := setAdd csa x })]
        (streamResponse x "" true) =
        ([(conn, streamResponse x "" true)],
          [(conn, { initialized := true, activeRequests := csa })]) := by
      simp [routeOne, findTarget, h1, isStreamDone, streamResponse, clientsGet,
        clientsSet, setDelete_setAdd _ _ hstale]
    simp [onMessage, clientsGet, hvs, admitAndDispatch, handleRequest, hs,
      clientsSet, routeEmissions_append, hchunks, routeEmissions, hfin,
      clientsGet_set_self]
  · have hs : handleStream { id := x, method := "stream", params := some p }
        backend none h =
        (.ok (),
          backend.streamChunks.map (fun ch => streamResponse x ch false)
            ++ [errorResponse x (handleApiError m)],
          backend.streamChunks.length, true,
          { h with nextToken := h.nextToken + 1, activeRequests := mapDelete (mapSet h.activeRequests x h.nextToken) x }) := by
      simp [handleStream, hvals, streamLoop_no_abort, herr]
    have hfin : routeOne [(conn, { initialized := true, activeRequests := setAdd csa x })]
        (errorResponse x (handleApiError m)) =
        ([(conn, errorResponse x (handleApiError m))],
          [(conn, { initialized := true, activeRequests := setAdd csa x })]) := by
      simp [routeOne, findTarget, h1, isStreamDone, errorResponse]
    simp [onMessage, clientsGet, hvs, admitAndDispatch, handleRequest, hs,
      clientsSet, routeEmissions_append, hchunks, routeEmissions, hfin,
      clientsGet_set_self]

/-- C2 amended witness: generate and the two stream outcomes on a
concrete single-connection server. -/
theorem C2_amended_witness :
    setHas ([] : List RId) (RId.num 7) = false
    ∧ ((GenOutcome.ok "hello" = GenOutcome.ok "hello" →
      (onMessage 0
          { id := RId.num 7, method := "generate",
            params := some { prompt := some "hi", requestId := none, configuration := false } }
          { gen := GenOutcome.ok "hello", streamChunks := ["a"], streamErr := none } none
          { protocol := { initialized := true, shutdownRequested := false }
            clients := [(0, { initialized := true, activeRequests := [] })]
            handlers := HandlersState.initial }).emissions =
        [(0, completionResponse (RId.num 7) "hello")]
      ∧ clientsGet (onMessage 0
          { id := RId.num 7, method := "generate",
            params := some { prompt := some "hi", requestId := none, configuration := false } }
          { gen := GenOutcome.ok "hello", streamChunks := ["a"], streamErr := none } none
          { protocol := { initialized := true, shutdownRequested := false }
            clients := [(0, { initialized := true, activeRequests := [] })]
            handlers := HandlersState.initial }).state.clients 0 =
        some { initialized := true, activeRequests := [] })) :=
  ⟨by decide,
    (C2_amended_inflight_bracket 0 { initialized := true, activeRequests := [] }
      { initialized := true, shutdownRequested := false } HandlersState.initial
      (RId.num 7) { prompt := some "hi", requestId := none, configuration := false }
      { gen := GenOutcome.ok "hello", streamChunks := ["a"], streamErr := none }
      "hello" "boom"
      (by decide) (by decide) (by decide) (by decide) (by decide)).1⟩
